import Mathlib

/-!
Verification of the cc-server-kit bootstrap core (src/generic_setup.rs and
src/startup.rs) via a shallow embedding.  The embedding models a build with
the `acme`, `http3`, `oapi` and `cors` cargo features enabled and the
`otel` / `log-without-filtering` features disabled, which is the
configuration in which all seven startup variants exist.  Rust `Result<T,
ErrorResponse>` (the `MResult` alias) is embedded as `Except String`
carrying the exact error-message string built at each error site; process
global state touched by logger registration is threaded explicitly through
a `LogWorld` value.
-/

namespace CC

/-- `MResult` from cc-utils: a result whose error is an `ErrorResponse`;
we keep only the message string of the error. -/
abbrev MResult (α : Type) := Except String α

/-- `StartupVariant` from src/generic_setup.rs (all feature-gated
variants present, i.e. features `acme` and `http3` enabled). -/
inductive StartupVariant
  | HttpLocalhost
  | UnsafeHttp
  | HttpsAcme
  | QuinnAcme
  | HttpsOnly
  | Quinn
  | QuinnOnly
deriving DecidableEq, Repr

/-- `tracing::Level` (the five severities used by `match_log_level`). -/
inductive Level
  | ERROR
  | WARN
  | INFO
  | DEBUG
  | TRACE
deriving DecidableEq, Repr

/-- `tracing_appender::rolling::Rotation` (the four policies used by
`match_log_file_rolling`). -/
inductive Rotation
  | NEVER
  | DAILY
  | HOURLY
  | MINUTELY
deriving DecidableEq, Repr

/-- `GenericValues` from src/generic_setup.rs, with the fields of the
modelled feature set (`cors` and `oapi` on, `otel` off).  `server_port`
and `log_rolling_max_files` are numeric (`u16` / `u32`) and are embedded
as `Nat`; `server_port_achiever` is a `PathBuf` embedded as a path
string. -/
structure GenericValues where
  app_name : String
  startup_type : String
  server_host : Option String
  server_port : Option Nat
  acme_domain : Option String
  ssl_key_path : Option String
  ssl_crt_path : Option String
  auto_migrate_bin : Option String
  server_port_achiever : Option String
  allow_cors_domain : Option String
  allow_oapi_access : Option Bool
  oapi_frontend_type : Option String
  oapi_name : Option String
  oapi_ver : Option String
  oapi_api_addr : Option String
  log_level : Option String
  log_file_level : Option String
  log_rolling : Option String
  log_rolling_max_files : Option Nat
deriving DecidableEq, Repr

/-- `impl Default for GenericValues` from src/generic_setup.rs. -/
def GenericValues.default : GenericValues :=
  { app_name := "generic"
    startup_type := "http_localhost"
    server_host := none
    server_port := some 8800
    acme_domain := none
    ssl_key_path := none
    ssl_crt_path := none
    auto_migrate_bin := none
    server_port_achiever := none
    allow_cors_domain := none
    allow_oapi_access := none
    oapi_frontend_type := none
    oapi_name := none
    oapi_ver := none
    oapi_api_addr := none
    log_level := some "debug"
    log_file_level := none
    log_rolling := none
    log_rolling_max_files := none }

/-- `GenericServerState` from src/generic_setup.rs.  The
`_file_log_guard` field (an `Option<Arc<WorkerGuard>>`) is embedded as
`Option Unit`: only the presence of the guard is observable to the
claims. -/
structure GenericServerState where
  startup_variant : StartupVariant
  file_log_guard : Option Unit
deriving DecidableEq, Repr

/-- `match_log_level` from src/generic_setup.rs.  The extra `dbg`
argument models `cfg!(debug_assertions)` in the `None` branch. -/
def match_log_level (dbg : Bool) (log_level : Option String) : MResult Level :=
  match log_level with
  | some s =>
    match s with
    | "error" => .ok .ERROR
    | "warn" => .ok .WARN
    | "info" => .ok .INFO
    | "debug" => .ok .DEBUG
    | "trace" => .ok .TRACE
    | _ => .error "Incorrect logging level."
  | none => if dbg then .ok .DEBUG else .error "Logging is disabled"

/-- `match_log_file_rolling` from src/generic_setup.rs. -/
def match_log_file_rolling (log_rolling : Option String) : MResult Rotation :=
  match log_rolling with
  | some s =>
    match s with
    | "never" => .ok .NEVER
    | "daily" => .ok .DAILY
    | "hourly" => .ok .HOURLY
    | "minutely" => .ok .MINUTELY
    | _ =>
      .error "Incorrect level of log rotation. Choose one of the options: `never`, `daily`, `hourly`, `minutely`."
  | none => .ok .NEVER

/-- Process-global state observed by `init_logging`:
whether a global default tracing subscriber was already registered, and
whether building the rolling file appender (a filesystem operation on
the `logs` directory) succeeds. -/
structure LogWorld where
  globalSubscriberSet : Bool
  fileAppenderOk : Bool
deriving DecidableEq, Repr

/-- Modelled from the spec: `tracing::subscriber::set_global_default`,
the process-wide logger registration called by `init_logging`; its body
lives in the external `tracing` crate, not under src/.  Per the spec
(section 4.3) registration "may occur at most once; a second call is a
fatal startup error": it fails exactly when a global subscriber is
already set, and otherwise records the registration. -/
def set_global_default (w : LogWorld) : LogWorld × MResult Unit :=
  if w.globalSubscriberSet then
    (w, .error "a global default trace dispatcher has already been set")
  else ({ w with globalSubscriberSet := true }, .ok ())

/-- `init_logging` from src/generic_setup.rs (features `otel` and
`log-without-filtering` off), with the process-global state threaded
through `LogWorld`.  The console layer is built iff `log_level` is `Ok`
(it does not affect the returned value); the file layer and its guard
are built iff `log_file_level` is `Ok`, failing when the rolling
appender cannot be built; finally the composed collector is registered
with `set_global_default`, whose error propagates via `?`. -/
def init_logging (w : LogWorld) (app_name : String)
    (log_level log_file_level : MResult Level)
    (log_rolling : Rotation) (log_rolling_max_files : Option Nat) :
    LogWorld × MResult (Option Unit) :=
  let _io_tracer : Option Unit := match log_level with
    | .ok _ => some ()
    | .error _ => none
  let guard : MResult (Option Unit) := match log_file_level with
    | .ok _ =>
      if w.fileAppenderOk then .ok (some ())
      else .error "Failed to initialize logging to file!"
    | .error _ => .ok none
  match guard with
  | .error e => (w, .error e)
  | .ok g =>
    match set_global_default w with
    | (w2, .ok _) => (w2, .ok g)
    | (w2, .error e) => (w2, .error e)

/-- `load_generic_state` from src/generic_setup.rs (features `acme` and
`http3` enabled, so all seven startup strings have match arms).  Logging
is initialized first — note that the results of `match_log_level` are
*not* propagated with `?`, only `match_log_file_rolling` and
`init_logging` are — and only then is `startup_type` matched against the
variant vocabulary, with per-variant field validation inline. -/
def load_generic_state (dbg : Bool) (w : LogWorld) (data : GenericValues) :
    LogWorld × MResult GenericServerState :=
  let log_level := match_log_level dbg data.log_level
  let log_file_level := match_log_level dbg data.log_file_level
  match match_log_file_rolling data.log_rolling with
  | .error e => (w, .error e)
  | .ok log_rolling =>
    match init_logging w data.app_name log_level log_file_level log_rolling
        data.log_rolling_max_files with
    | (w2, .error e) => (w2, .error e)
    | (w2, .ok file_log_guard) =>
      (w2,
        match data.startup_type with
        | "http_localhost" =>
          if data.server_host.isSome then
            .error "Server will only listen `127.0.0.1` address because of `http_localhost` startup variant. Consider to move to `https_only` or `quinn`."
          else .ok ⟨.HttpLocalhost, file_log_guard⟩
        | "unsafe_http" =>
          if data.server_host.isNone then
            .error "Choose server\x27s host, e.g. `0.0.0.0`."
          else .ok ⟨.UnsafeHttp, file_log_guard⟩
        | "https_acme" =>
          if data.server_host.isNone then
            .error "Choose server\x27s host, e.g. `0.0.0.0`."
          else if data.acme_domain.isNone then
            .error "Choose ACME\x27s domain!"
          else .ok ⟨.HttpsAcme, file_log_guard⟩
        | "https_only" =>
          if data.server_host.isNone then
            .error "Choose server\x27s host, e.g. `0.0.0.0`."
          else if data.ssl_key_path.isNone then
            .error "Choose SSL key path."
          else if data.ssl_crt_path.isNone then
            .error "Choose SSL cert path."
          else .ok ⟨.HttpsOnly, file_log_guard⟩
        | "quinn_acme" =>
          if data.server_host.isNone then
            .error "Choose server\x27s host, e.g. `0.0.0.0`."
          else if data.acme_domain.isNone then
            .error "Choose ACME\x27s domain!"
          else .ok ⟨.QuinnAcme, file_log_guard⟩
        | "quinn" =>
          if data.server_host.isNone then
            .error "Choose server\x27s host, e.g. `0.0.0.0`."
          else if data.ssl_key_path.isNone then
            .error "Choose SSL key path."
          else if data.ssl_crt_path.isNone then
            .error "Choose SSL cert path."
          else .ok ⟨.Quinn, file_log_guard⟩
        | "quinn_only" =>
          if data.server_host.isNone then
            .error "Choose server\x27s host, e.g. `0.0.0.0`."
          else if data.ssl_key_path.isNone then
            .error "Choose SSL key path."
          else if data.ssl_crt_path.isNone then
            .error "Choose SSL cert path."
          else .ok ⟨.QuinnOnly, file_log_guard⟩
        | _ =>
          .error "The server deployment method could not be determined. Read the documentation on the `startup_variant` field.")

/-- The fixed message produced by the default arm of the `startup_type`
match in `load_generic_state`. -/
def unknownVariantMessage : String :=
  "The server deployment method could not be determined. Read the documentation on the `startup_variant` field."

/-! ## Configuration loading (`load_generic_config`)

The loader is embedded with its effects as parameters: `fs` maps a path
to the contents of the file at that path (`none` when opening or
reading fails), `parse` is the `serde_yaml` deserialization into the
setup type restricted to its `GenericValues` part (`none` on a YAML
error), and `watch` is the awaited result of the `watcher` task for a
given path.  The source first tries to open the working-directory file
and falls back to `/etc` only when that open failed. -/

/-- The tail of `load_generic_config`: when `server_port_achiever` is
set, block on the watcher and overwrite `server_port` with its result
(propagating its error); otherwise return the config unchanged. -/
def achieve_port (watch : String → MResult Nat) (data : GenericValues) :
    MResult GenericValues :=
  match data.server_port_achiever with
  | some achiever =>
    match watch achiever with
    | .ok port => .ok { data with server_port := some port }
    | .error e => .error e
  | none => .ok data

/-- `load_generic_config` from src/generic_setup.rs (feature `oapi`
enabled).  `fs` merges the `File::open` + `read_to_string` pair, so the
separate read-failure message of the source is unreachable here. -/
def load_generic_config (fs : String → Option String)
    (parse : String → Option GenericValues)
    (watch : String → MResult Nat) (app_name : String) :
    MResult GenericValues :=
  let file : Option String :=
    match fs (app_name ++ ".yaml") with
    | some contents => some contents
    | none => fs ("/etc/" ++ app_name ++ ".yaml")
  match file with
  | none => .error "The server configuration could not be found."
  | some buffer =>
    match parse buffer with
    | none => .error "Failed to parse the contents of the server configuration file."
    | some config =>
      let data := { config with app_name := app_name }
      if data.allow_oapi_access = some true then
        if data.oapi_name = none then
          .error "The API name for OAPI is not specified."
        else if data.oapi_ver = none then
          .error "The API version for OAPI is not specified."
        else if data.oapi_api_addr = none then
          .error "The path to OAPI was not specified."
        else achieve_port watch data
      else achieve_port watch data

/-! ## PortWatcher (`watcher`) -/

/-- The kind of a `notify` filesystem event, as far as the watcher loop
distinguishes them (`event.kind.is_modify() || event.kind.is_create()`
is the only test performed). -/
inductive EventKind
  | create
  | modify
  | remove
  | rename
  | access
deriving DecidableEq, Repr

/-- `EventKind.is_modify() || EventKind.is_create()`. -/
def EventKind.isModifyOrCreate : EventKind → Bool
  | .create => true
  | .modify => true
  | _ => false

/-- One item delivered on the watcher channel: either an event or a
watcher-level error (a `notify::Error`, kept as its message). -/
abbrev WatchItem := Except String EventKind

/-- Accumulate decimal digits; `none` as soon as a non-digit occurs or
when the list is empty (`str::parse` on an empty digit sequence is an
error). -/
def parse_digits : List Char → Option Nat
  | [] => none
  | cs => cs.foldl
      (fun acc c =>
        acc.bind fun n => if c.isDigit then some (n * 10 + (c.toNat - 48)) else none)
      (some 0)

/-- `str::trim`: strip leading and trailing whitespace (the ASCII
whitespace of `Char.isWhitespace`; the claims only exercise spaces and
newlines). -/
def rust_trim (s : String) : String :=
  ⟨((s.data.dropWhile Char.isWhitespace).reverse.dropWhile Char.isWhitespace).reverse⟩

/-- `str::parse::<u16>`: an optional leading `+`, then one or more
decimal digits, with the value bounded by `u16::MAX` (overflow during
parsing is an error, which on the final value is exactly the bound
check). -/
def parse_u16 (s : String) : Option Nat :=
  let cs := match s.data with
    | '+' :: rest => rest
    | cs => cs
  match parse_digits cs with
  | some n => if n < 65536 then some n else none
  | none => none

/-- The receive loop of `watcher` from src/generic_setup.rs, run over
the sequence of items the channel delivers.  `read_file i` is the
contents of the watched file when the `i`-th item is handled (`none`
when `read_to_string` fails); `unwatch_ok` tells whether the final
`unwatch` call succeeds (its error is propagated with the usual
`ErrorResponse` wrapping, message abstracted).  An exhausted channel is
the closed-channel error after the loop. -/
def watcher_loop (read_file : Nat → Option String) (unwatch_ok : Bool) :
    List WatchItem → Nat → MResult Nat
  | [], _ => .error "Event channel is broken!"
  | item :: rest, i =>
    match item with
    | .ok kind =>
      if kind.isModifyOrCreate then
        match read_file i with
        | some contents =>
          match parse_u16 (rust_trim contents) with
          | some port =>
            if unwatch_ok then .ok port else .error "unwatch failed"
          | none => watcher_loop read_file unwatch_ok rest (i + 1)
        | none => watcher_loop read_file unwatch_ok rest (i + 1)
      else watcher_loop read_file unwatch_ok rest (i + 1)
    | .error e => .error e

/-! ## Startup (src/startup.rs) -/

/-- The response-processing middlewares (`hoop`s) the root router
installs; the claims only observe `h3_header`. -/
inductive Hoop
  | h3Header
deriving DecidableEq, Repr

/-- Response headers, as an association list (newest first). -/
abbrev Headers := List (String × String)

/-- The value the `h3_header` handler formats:
`h3=":{port}"; ma=2592000`. -/
def alt_svc_value (port : Nat) : String :=
  "h3=\":" ++ toString port ++ "\"; ma=2592000"

/-- `http::HeaderMap::insert`: set the single value for the key
(removing any previous values), and return the new map together with
the first previous value for that key — `none` when the key was not
present. -/
def headers_insert (res : Headers) (key value : String) : Headers × Option String :=
  ((key, value) :: res.filter (fun p => p.1 != key),
    (res.find? (fun p => p.1 == key)).map Prod.snd)

/-- The `h3_header` handler from src/startup.rs.  `depot` is the
`GenericValues` obtainable from the request depot, if any
(`depot.obtain::<GenericValues>()` fails when no value of that exact
type was injected, in which case the port falls back to `443`).  Both
panics are modelled as `none`: the `server_port.unwrap()` on an
obtained configuration without a port, and the trailing `.unwrap()` on
the `Option` that `HeaderMap::insert` returns — the previous alt-svc
value — which is `none`, hence a panic, whenever the response did not
already carry an alt-svc header. -/
def h3_header (depot : Option GenericValues) (res : Headers) : Option Headers :=
  let server_port : Option Nat :=
    match depot with
    | some app_config => app_config.server_port
    | none => some 443
  match server_port with
  | none => none
  | some p =>
    match headers_insert res "alt-svc" (alt_svc_value p) with
    | (res2, some _) => some res2
    | (_, none) => none

/-- `get_root_router` from src/startup.rs (features `http3` and `acme`
on), reduced to the list of hoops it installs: `h3_header` is hooped
for `QuinnAcme` by the first conditional and for `Quinn` / `QuinnOnly`
by the second; nothing is injected into the depot. -/
def get_root_router (app_state : GenericServerState) : List Hoop :=
  (if app_state.startup_variant = .QuinnAcme then [Hoop.h3Header] else [])
    ++ (if app_state.startup_variant = .Quinn ∨ app_state.startup_variant = .QuinnOnly
        then [Hoop.h3Header] else [])

/-- The bind-address formation of `start_with_service` from
src/startup.rs: each variant arm formats the listen address from
`server_host` / `server_port` with bare `.unwrap()` calls, after
unwrapping the variant-specific certificate fields; a panic is
modelled as `none`.  The arm order and the unwraps mirror the source
(TLS key/cert unwraps happen while building the rustls config, before
the address is formatted). -/
def start_with_service_bind_addr (variant : StartupVariant)
    (app_config : GenericValues) : Option String :=
  match variant with
  | .HttpLocalhost =>
    app_config.server_port.map fun p => "127.0.0.1:" ++ toString p
  | .UnsafeHttp => do
    let host ← app_config.server_host
    let p ← app_config.server_port
    pure (host ++ ":" ++ toString p)
  | .HttpsAcme => do
    let host ← app_config.server_host
    let p ← app_config.server_port
    let _ ← app_config.acme_domain
    pure (host ++ ":" ++ toString p)
  | .HttpsOnly => do
    let _ ← app_config.ssl_crt_path
    let _ ← app_config.ssl_key_path
    let host ← app_config.server_host
    let p ← app_config.server_port
    pure (host ++ ":" ++ toString p)
  | .QuinnAcme => do
    let host ← app_config.server_host
    let p ← app_config.server_port
    let _ ← app_config.acme_domain
    pure (host ++ ":" ++ toString p)
  | .Quinn => do
    let _ ← app_config.ssl_crt_path
    let _ ← app_config.ssl_key_path
    let host ← app_config.server_host
    let p ← app_config.server_port
    pure (host ++ ":" ++ toString p)
  | .QuinnOnly => do
    let _ ← app_config.ssl_crt_path
    let _ ← app_config.ssl_key_path
    let host ← app_config.server_host
    let p ← app_config.server_port
    pure (host ++ ":" ++ toString p)

/-! ## Concrete fixtures used by the theorems -/

/-- A fresh process: no global subscriber registered yet, and the
rolling-appender directory writable. -/
def freshWorld : LogWorld :=
  { globalSubscriberSet := false, fileAppenderOk := true }

/-- A document with every optional field absent; per-variant fixtures
set `startup_type` and the required fields on top of it. -/
def emptyConfig : GenericValues :=
  { app_name := "app"
    startup_type := ""
    server_host := none
    server_port := none
    acme_domain := none
    ssl_key_path := none
    ssl_crt_path := none
    auto_migrate_bin := none
    server_port_achiever := none
    allow_cors_domain := none
    allow_oapi_access := none
    oapi_frontend_type := none
    oapi_name := none
    oapi_ver := none
    oapi_api_addr := none
    log_level := none
    log_file_level := none
    log_rolling := none
    log_rolling_max_files := none }

/-- The message of the `http_localhost` arm when a host is supplied. -/
def localhostHostMessage : String :=
  "Server will only listen `127.0.0.1` address because of `http_localhost` startup variant. Consider to move to `https_only` or `quinn`."

/-- The message of a missing `server_host`. -/
def missingHostMessage : String := "Choose server\x27s host, e.g. `0.0.0.0`."

/-- The message of a missing `acme_domain`. -/
def missingAcmeDomainMessage : String := "Choose ACME\x27s domain!"

/-- The message of a missing `ssl_key_path`. -/
def missingSslKeyMessage : String := "Choose SSL key path."

/-- The message of a missing `ssl_crt_path`. -/
def missingSslCrtMessage : String := "Choose SSL cert path."

/-- The message `load_generic_config` produces when neither candidate
file can be opened. -/
def configNotFoundMessage : String := "The server configuration could not be found."

/-- The message `load_generic_config` produces when the file contents
fail to parse. -/
def configMalformedMessage : String :=
  "Failed to parse the contents of the server configuration file."

/-- The message of `tracing::subscriber::set_global_default` when a
global subscriber is already registered. -/
def regErrorMessage : String := "a global default trace dispatcher has already been set"

/-- Does the second character list start with the first one? -/
def chars_lead : List Char → List Char → Bool
  | [], _ => true
  | _ :: _, [] => false
  | a :: as, b :: bs => a == b && chars_lead as bs

/-- Does the second list contain the first as a contiguous run? -/
def chars_contain (needle : List Char) : List Char → Bool
  | [] => needle.isEmpty
  | c :: rest => chars_lead needle (c :: rest) || chars_contain needle rest

/-- Substring test: does `hay` contain `needle`? -/
def str_contains_sub (hay needle : String) : Bool :=
  chars_contain needle.data hay.data

/-! ## Shared lemmas about the logging world -/

lemma init_logging_already_set (w : LogWorld) (a : String) (ll lfl : MResult Level)
    (r : Rotation) (m : Option Nat) (hg : w.globalSubscriberSet = true) :
    ((init_logging w a ll lfl r m).2).isOk = false := by
  cases lfl <;> cases hfa : w.fileAppenderOk <;>
    simp [init_logging, set_global_default, hg, hfa, Except.isOk, Except.toBool]

lemma init_logging_already_set_full (w : LogWorld) (a : String) (ll lfl : MResult Level)
    (r : Rotation) (m : Option Nat)
    (hg : w.globalSubscriberSet = true) (hfa : w.fileAppenderOk = true) :
    init_logging w a ll lfl r m = (w, .error regErrorMessage) := by
  cases lfl <;> simp [init_logging, set_global_default, hg, hfa, regErrorMessage]

lemma init_logging_fresh (w : LogWorld) (a : String) (ll lfl : MResult Level)
    (r : Rotation) (m : Option Nat)
    (hg : w.globalSubscriberSet = false) (hfa : w.fileAppenderOk = true) :
    init_logging w a ll lfl r m =
      ({ w with globalSubscriberSet := true },
        .ok (match lfl with | .ok _ => some () | .error _ => none)) := by
  cases lfl <;> simp [init_logging, set_global_default, hg, hfa]

lemma load_generic_state_already_set (dbg : Bool) (w : LogWorld) (data : GenericValues)
    (hg : w.globalSubscriberSet = true) :
    (((load_generic_state dbg w data).2)).isOk = false := by
  simp only [load_generic_state]
  cases hr : match_log_file_rolling data.log_rolling with
  | error e => simp [hr, Except.isOk, Except.toBool]
  | ok r =>
    have hinit := init_logging_already_set w data.app_name
      (match_log_level dbg data.log_level) (match_log_level dbg data.log_file_level)
      r data.log_rolling_max_files hg
    rcases hpair : init_logging w data.app_name
        (match_log_level dbg data.log_level) (match_log_level dbg data.log_file_level)
        r data.log_rolling_max_files with ⟨w2, r2⟩
    rw [hpair] at hinit
    cases r2 with
    | error e => simp [hr, hpair, Except.isOk, Except.toBool]
    | ok g => simp [Except.isOk, Except.toBool] at hinit

lemma load_generic_state_already_set_full (dbg : Bool) (w : LogWorld) (data : GenericValues)
    (r : Rotation) (hg : w.globalSubscriberSet = true) (hfa : w.fileAppenderOk = true)
    (hr : match_log_file_rolling data.log_rolling = .ok r) :
    (load_generic_state dbg w data).2 = .error regErrorMessage := by
  simp only [load_generic_state, hr,
    init_logging_already_set_full w data.app_name
      (match_log_level dbg data.log_level) (match_log_level dbg data.log_file_level)
      r data.log_rolling_max_files hg hfa]

/-! ## Claim theorems -/

/-- C1: for each of the seven startup-type strings, `load_generic_state`
on the minimal field set of the variant table succeeds and resolves
exactly that variant (for any values of the required fields and either
build flag); removing any one required field fails with the
corresponding missing-field message (`server_host` for the six
non-localhost variants, `acme_domain` for the ACME variants,
`ssl_key_path` / `ssl_crt_path` for the static-TLS variants); and for
`http_localhost`, supplying any `server_host` value fails. -/
theorem c1_variant_field_table (dbg : Bool) (h d k c : String) :
    ((load_generic_state dbg freshWorld
        { emptyConfig with startup_type := "http_localhost" }).2).map
        GenericServerState.startup_variant = .ok .HttpLocalhost
  ∧ ((load_generic_state dbg freshWorld
        { emptyConfig with
          startup_type := "unsafe_http",
          server_host := some h }).2).map
        GenericServerState.startup_variant = .ok .UnsafeHttp
  ∧ ((load_generic_state dbg freshWorld
        { emptyConfig with
          startup_type := "https_acme",
          server_host := some h, acme_domain := some d }).2).map
        GenericServerState.startup_variant = .ok .HttpsAcme
  ∧ ((load_generic_state dbg freshWorld
        { emptyConfig with
          startup_type := "https_only", server_host := some h,
          ssl_key_path := some k, ssl_crt_path := some c }).2).map
        GenericServerState.startup_variant = .ok .HttpsOnly
  ∧ ((load_generic_state dbg freshWorld
        { emptyConfig with
          startup_type := "quinn_acme",
          server_host := some h, acme_domain := some d }).2).map
        GenericServerState.startup_variant = .ok .QuinnAcme
  ∧ ((load_generic_state dbg freshWorld
        { emptyConfig with
          startup_type := "quinn", server_host := some h,
          ssl_key_path := some k, ssl_crt_path := some c }).2).map
        GenericServerState.startup_variant = .ok .Quinn
  ∧ ((load_generic_state dbg freshWorld
        { emptyConfig with
          startup_type := "quinn_only", server_host := some h,
          ssl_key_path := some k, ssl_crt_path := some c }).2).map
        GenericServerState.startup_variant = .ok .QuinnOnly
  ∧ (load_generic_state dbg freshWorld
        { emptyConfig with startup_type := "unsafe_http" }).2
        = .error missingHostMessage
  ∧ (load_generic_state dbg freshWorld
        { emptyConfig with
          startup_type := "https_acme",
          acme_domain := some d }).2 = .error missingHostMessage
  ∧ (load_generic_state dbg freshWorld
        { emptyConfig with
          startup_type := "https_acme",
          server_host := some h }).2 = .error missingAcmeDomainMessage
  ∧ (load_generic_state dbg freshWorld
        { emptyConfig with
          startup_type := "https_only",
          ssl_key_path := some k, ssl_crt_path := some c }).2
        = .error missingHostMessage
  ∧ (load_generic_state dbg freshWorld
        { emptyConfig with
          startup_type := "https_only", server_host := some h,
          ssl_crt_path := some c }).2 = .error missingSslKeyMessage
  ∧ (load_generic_state dbg freshWorld
        { emptyConfig with
          startup_type := "https_only", server_host := some h,
          ssl_key_path := some k }).2 = .error missingSslCrtMessage
  ∧ (load_generic_state dbg freshWorld
        { emptyConfig with
          startup_type := "quinn_acme",
          acme_domain := some d }).2 = .error missingHostMessage
  ∧ (load_generic_state dbg freshWorld
        { emptyConfig with
          startup_type := "quinn_acme",
          server_host := some h }).2 = .error missingAcmeDomainMessage
  ∧ (load_generic_state dbg freshWorld
        { emptyConfig with
          startup_type := "quinn",
          ssl_key_path := some k, ssl_crt_path := some c }).2
        = .error missingHostMessage
  ∧ (load_generic_state dbg freshWorld
        { emptyConfig with
          startup_type := "quinn", server_host := some h,
          ssl_crt_path := some c }).2 = .error missingSslKeyMessage
  ∧ (load_generic_state dbg freshWorld
        { emptyConfig with
          startup_type := "quinn", server_host := some h,
          ssl_key_path := some k }).2 = .error missingSslCrtMessage
  ∧ (load_generic_state dbg freshWorld
        { emptyConfig with
          startup_type := "quinn_only",
          ssl_key_path := some k, ssl_crt_path := some c }).2
        = .error missingHostMessage
  ∧ (load_generic_state dbg freshWorld
        { emptyConfig with
          startup_type := "quinn_only", server_host := some h,
          ssl_crt_path := some c }).2 = .error missingSslKeyMessage
  ∧ (load_generic_state dbg freshWorld
        { emptyConfig with
          startup_type := "quinn_only", server_host := some h,
          ssl_key_path := some k }).2 = .error missingSslCrtMessage
  ∧ (load_generic_state dbg freshWorld
        { emptyConfig with
          startup_type := "http_localhost",
          server_host := some h }).2 = .error localhostHostMessage := by
  cases dbg <;>
    exact ⟨rfl, rfl, rfl, rfl, rfl, rfl, rfl, rfl, rfl, rfl, rfl, rfl, rfl, rfl,
      rfl, rfl, rfl, rfl, rfl, rfl, rfl, rfl⟩

/-- C1 witness: the minimal `unsafe_http` configuration at concrete
values resolves the `UnsafeHttp` variant. -/
theorem c1_variant_field_table_witness :
    ((load_generic_state true freshWorld
        { emptyConfig with
          startup_type := "unsafe_http",
          server_host := some "0.0.0.0" }).2).map
        GenericServerState.startup_variant = .ok .UnsafeHttp :=
  (c1_variant_field_table true "0.0.0.0" "example.com" "key.pem" "crt.pem").2.1

/-- C2 counterexample: the default arm of the `startup_type` match
produces one fixed message; the inputs `"teleport"` and `"wireguard"`
yield the identical error, and the message does not contain the
offending string `"teleport"` — so the error does not name the
offending input, contrary to the claim. -/
theorem c2_counterexample :
    (load_generic_state true freshWorld
        { emptyConfig with startup_type := "teleport" }).2
        = .error unknownVariantMessage
  ∧ (load_generic_state true freshWorld
        { emptyConfig with startup_type := "wireguard" }).2
        = .error unknownVariantMessage
  ∧ str_contains_sub unknownVariantMessage "teleport" = false :=
  ⟨rfl, rfl, by decide⟩

/-- C2 amended: for every startup-type string outside the fixed
vocabulary, `load_generic_state` fails with the fatal unknown-variant
error, whose message is the one fixed documentation-pointer string and
does not vary with (nor name) the offending input. -/
theorem c2_unknown_variant_fixed_message (dbg : Bool) (s : String)
    (h : s ∉ (["http_localhost", "unsafe_http", "https_acme", "https_only",
        "quinn_acme", "quinn", "quinn_only"] : List String)) :
    (load_generic_state dbg freshWorld
        { emptyConfig with startup_type := s }).2 = .error unknownVariantMessage := by
  simp only [List.mem_cons, List.not_mem_nil, not_or] at h
  obtain ⟨h1, h2, h3, h4, h5, h6, h7, -⟩ := h
  cases dbg <;>
  · simp only [load_generic_state, match_log_level, match_log_file_rolling, init_logging,
      set_global_default, freshWorld, unknownVariantMessage]
    split <;> simp_all [emptyConfig]

/-- C2 amended witness at the concrete input `"teleport"`. -/
theorem c2_unknown_variant_fixed_message_witness :
    (load_generic_state true freshWorld
        { emptyConfig with startup_type := "teleport" }).2
        = .error unknownVariantMessage :=
  c2_unknown_variant_fixed_message true "teleport" (by decide)

/-- C7: `match_log_level` maps the five valid severity strings totally
and injectively to the five distinct levels, and fails with the
invalid-level message on every other present string (it never
defaults when a string is present). -/
theorem c7_log_level_mapping (dbg : Bool) (s : String)
    (h : s ∉ (["error", "warn", "info", "debug", "trace"] : List String)) :
    match_log_level dbg (some "error") = .ok .ERROR
  ∧ match_log_level dbg (some "warn") = .ok .WARN
  ∧ match_log_level dbg (some "info") = .ok .INFO
  ∧ match_log_level dbg (some "debug") = .ok .DEBUG
  ∧ match_log_level dbg (some "trace") = .ok .TRACE
  ∧ (∀ s1 s2, s1 ∈ (["error", "warn", "info", "debug", "trace"] : List String) →
      s2 ∈ (["error", "warn", "info", "debug", "trace"] : List String) →
      match_log_level dbg (some s1) = match_log_level dbg (some s2) → s1 = s2)
  ∧ match_log_level dbg (some s) = .error "Incorrect logging level." := by
  refine ⟨rfl, rfl, rfl, rfl, rfl, ?_, ?_⟩
  · intro s1 s2 h1 h2 heq
    fin_cases h1 <;> fin_cases h2 <;> simp_all [match_log_level]
  · simp only [List.mem_cons, List.not_mem_nil, not_or] at h
    obtain ⟨h1, h2, h3, h4, h5, -⟩ := h
    unfold match_log_level
    split <;> simp_all

/-- C7 witness at the concrete sixth string `"fatal"`. -/
theorem c7_log_level_mapping_witness :
    match_log_level true (some "fatal") = .error "Incorrect logging level." :=
  (c7_log_level_mapping true "fatal" (by decide)).2.2.2.2.2.2

/-- C3: `load_generic_config` resolves the document by trying the
working-directory path first and the `/etc` path only when that open
fails; it fails with the not-found message when neither file exists,
with the distinct malformed message when a file exists but fails to
parse (whichever of the two paths supplied it), and its result does
not depend on the `/etc` path once the working-directory open
succeeds. -/
theorem c3_config_resolution (fs fs2 : String → Option String)
    (parse : String → Option GenericValues) (watch : String → MResult Nat)
    (app_name contents : String) :
    (fs (app_name ++ ".yaml") = none → fs ("/etc/" ++ app_name ++ ".yaml") = none →
      load_generic_config fs parse watch app_name = .error configNotFoundMessage)
  ∧ (fs (app_name ++ ".yaml") = some contents → parse contents = none →
      load_generic_config fs parse watch app_name = .error configMalformedMessage)
  ∧ (fs (app_name ++ ".yaml") = none →
      fs ("/etc/" ++ app_name ++ ".yaml") = some contents → parse contents = none →
      load_generic_config fs parse watch app_name = .error configMalformedMessage)
  ∧ configNotFoundMessage ≠ configMalformedMessage
  ∧ (fs (app_name ++ ".yaml") = some contents →
      fs2 (app_name ++ ".yaml") = some contents →
      load_generic_config fs parse watch app_name
        = load_generic_config fs2 parse watch app_name) := by
  refine ⟨?_, ?_, ?_, by decide, ?_⟩
  · intro h1 h2
    simp [load_generic_config, h1, h2, configNotFoundMessage]
  · intro h1 h2
    simp [load_generic_config, h1, h2, configMalformedMessage]
  · intro h1 h2 h3
    simp [load_generic_config, h1, h2, h3, configMalformedMessage]
  · intro h1 h2
    simp [load_generic_config, h1, h2]

/-- C3 witness: with no file present under either path, loading fails
with the not-found message. -/
theorem c3_config_resolution_witness :
    load_generic_config (fun _ => none) (fun _ => some emptyConfig)
      (fun _ => .error "unused") "app" = .error configNotFoundMessage :=
  (c3_config_resolution (fun _ => none) (fun _ => none) (fun _ => some emptyConfig)
    (fun _ => .error "unused") "app" "").1 rfl rfl

/-- C4: whatever the document contains and whichever path supplied it,
a successfully loaded configuration carries the caller-supplied
`app_name`: the parsed value of that field is overwritten and never
used. -/
theorem c4_app_name_caller_supplied (fs : String → Option String)
    (parse : String → Option GenericValues) (watch : String → MResult Nat)
    (app_name : String) (cfg : GenericValues)
    (hok : load_generic_config fs parse watch app_name = .ok cfg) :
    cfg.app_name = app_name := by
  simp only [load_generic_config, achieve_port] at hok
  repeat' split at hok
  all_goals simp_all
  all_goals rw [← hok]

/-- C4 witness: a document whose `app_name` field reads `"evil"` loads
with the caller-supplied name `"app"`. -/
theorem c4_app_name_caller_supplied_witness :
    ({ emptyConfig with app_name := "app" } : GenericValues).app_name = "app" :=
  c4_app_name_caller_supplied
    (fun q => if q = "app.yaml" then some "doc" else none)
    (fun _ => some { emptyConfig with app_name := "evil" })
    (fun _ => .error "unused") "app" { emptyConfig with app_name := "app" } rfl

/-- Once the watcher loop resolves to a port, delivering further events
cannot change the outcome (the watch was torn down). -/
lemma watcher_loop_ok_append (read_file : Nat → Option String) (uw : Bool)
    (more : List WatchItem) :
    ∀ (evs : List WatchItem) (i p : Nat),
      watcher_loop read_file uw evs i = .ok p →
      watcher_loop read_file uw (evs ++ more) i = .ok p := by
  intro evs
  induction evs with
  | nil => intro i p hres; simp [watcher_loop] at hres
  | cons item rest ih =>
    intro i p hres
    cases item with
    | error e => simp only [watcher_loop] at hres; cases hres
    | ok kind =>
      simp only [List.cons_append, watcher_loop] at hres ⊢
      cases hk : kind.isModifyOrCreate with
      | false => simp only [hk, Bool.false_eq_true, if_false] at hres ⊢; exact ih _ _ hres
      | true =>
        simp only [hk, if_true] at hres ⊢
        cases hrf : read_file i with
        | none => simp only [hrf] at hres ⊢; exact ih _ _ hres
        | some contents =>
          simp only [hrf] at hres ⊢
          cases hp : parse_u16 (rust_trim contents) with
          | none => simp only [hp] at hres ⊢; exact ih _ _ hres
          | some port =>
            simp only [hp] at hres ⊢
            cases uw with
            | false => simp at hres
            | true => simpa using hres

/-- C5: the watcher loop returns the first port successfully parsed
from the file after a modify-or-create event, tearing the watch down
(`unwatch` succeeding) at that point; events whose content fails to
parse, events whose read fails, and non-modify/create kinds are
skipped with watching continuing at the next delivered item; a
watcher-level error terminates the wait immediately with that error;
and once the loop has resolved to a port, appending any further
events (later writes) cannot re-trigger or change the outcome. -/
theorem c5_port_watcher (read_file : Nat → Option String) (kind : EventKind)
    (rest more evs : List WatchItem) (i p : Nat) (e contents : String) (uw : Bool) :
    (kind.isModifyOrCreate = true → read_file i = some contents →
      parse_u16 (rust_trim contents) = some p →
      watcher_loop read_file true (.ok kind :: rest) i = .ok p)
  ∧ (kind.isModifyOrCreate = true → read_file i = some contents →
      parse_u16 (rust_trim contents) = none →
      watcher_loop read_file uw (.ok kind :: rest) i
        = watcher_loop read_file uw rest (i + 1))
  ∧ (kind.isModifyOrCreate = true → read_file i = none →
      watcher_loop read_file uw (.ok kind :: rest) i
        = watcher_loop read_file uw rest (i + 1))
  ∧ (kind.isModifyOrCreate = false →
      watcher_loop read_file uw (.ok kind :: rest) i
        = watcher_loop read_file uw rest (i + 1))
  ∧ watcher_loop read_file uw (.error e :: rest) i = .error e
  ∧ (watcher_loop read_file uw evs i = .ok p →
      watcher_loop read_file uw (evs ++ more) i = .ok p) := by
  refine ⟨?_, ?_, ?_, ?_, rfl, watcher_loop_ok_append read_file uw more evs i p⟩
  · intro hk hrf hp; simp [watcher_loop, hk, hrf, hp]
  · intro hk hrf hp; simp [watcher_loop, hk, hrf, hp]
  · intro hk hrf; simp [watcher_loop, hk, hrf]
  · intro hk; simp [watcher_loop, hk]

/-- C5 witness: a removal event, then a modify event with non-numeric
content, then a modify event with content `"8080\n"` resolve to `8080`,
also with an extra later write appended. -/
theorem c5_port_watcher_witness :
    watcher_loop
      (fun i => if i = 2 then some "8080\n" else some "oops") true
      ([.ok .remove, .ok .modify, .ok .modify] ++ [.ok .modify]) 0 = .ok 8080 :=
  (c5_port_watcher (fun i => if i = 2 then some "8080\n" else some "oops")
      .remove [] [.ok .modify] [.ok .remove, .ok .modify, .ok .modify] 0 8080 "" "" true).2.2.2.2.2
    rfl

/-- C6: a successful `init_logging` marks the process-wide subscriber
registered, after which every further `init_logging` call — and hence
every further `load_generic_state` call — in the same process returns
an error, never a silent no-op or re-registration. -/
theorem c6_logger_registration_at_most_once (w : LogWorld) (a : String)
    (ll lfl : MResult Level) (r : Rotation) (m : Option Nat)
    (w2 : LogWorld) (g : Option Unit)
    (hok : init_logging w a ll lfl r m = (w2, .ok g)) :
    w2.globalSubscriberSet = true
  ∧ (∀ (a2 : String) (ll2 lfl2 : MResult Level) (r2 : Rotation) (m2 : Option Nat),
      ((init_logging w2 a2 ll2 lfl2 r2 m2).2).isOk = false)
  ∧ (∀ (dbg : Bool) (data : GenericValues),
      ((load_generic_state dbg w2 data).2).isOk = false) := by
  have hset : w2.globalSubscriberSet = true := by
    by_cases hg : w.globalSubscriberSet
    · have := init_logging_already_set w a ll lfl r m hg
      rw [hok] at this
      simp [Except.isOk, Except.toBool] at this
    · simp only [Bool.not_eq_true] at hg
      cases lfl <;> cases hfa : w.fileAppenderOk <;>
        simp_all [init_logging, set_global_default] <;>
        (obtain ⟨hw, -⟩ := hok; rw [← hw])
  refine ⟨hset, ?_, ?_⟩
  · intro a2 ll2 lfl2 r2 m2
    exact init_logging_already_set w2 a2 ll2 lfl2 r2 m2 hset
  · intro dbg data
    exact load_generic_state_already_set dbg w2 data hset

/-- C6 witness: after the fresh-world registration, a repeated
`init_logging` call fails. -/
theorem c6_logger_registration_at_most_once_witness :
    ((init_logging { globalSubscriberSet := true, fileAppenderOk := true } "app"
        (.ok .DEBUG) (.error "Logging is disabled") .NEVER none).2).isOk = false :=
  (c6_logger_registration_at_most_once freshWorld "app" (.ok .DEBUG)
      (.error "Logging is disabled") .NEVER none
      { globalSubscriberSet := true, fileAppenderOk := true } none rfl).2.1
    "app" (.ok .DEBUG) (.error "Logging is disabled") .NEVER none

/-- C8 (code bug): a `quinn` configuration with `server_port: 8800`
resolves the `Quinn` variant and `get_root_router` does install the
`h3_header` rewriter — but evaluating the handler at the failing
input shows the code panics instead of advertising the upgrade: on a
response with no pre-existing alt-svc header, `HeaderMap::insert`
returns `None` and the trailing `.unwrap()` (startup.rs line 43)
panics, whether or not a configuration is obtainable from the depot
(and a router built by `get_root_router` injects nothing into the
depot anyway).  Only a response that already carries an alt-svc
header completes, with that header replaced by one carrying the
depot-obtained configuration port — here `8800` — or the fallback
`443` when no configuration is obtainable. -/
theorem c8_h3_header_insert_unwrap_panics :
    (load_generic_state false freshWorld
        { emptyConfig with
          startup_type := "quinn", server_host := some "0.0.0.0",
          ssl_key_path := some "key.pem", ssl_crt_path := some "crt.pem",
          server_port := some 8800 }).2 = .ok ⟨.Quinn, none⟩
  ∧ get_root_router ⟨.Quinn, none⟩ = [Hoop.h3Header]
  ∧ h3_header none [] = none
  ∧ h3_header (some { emptyConfig with server_port := some 8800 }) [] = none
  ∧ h3_header (some { emptyConfig with server_port := some 8800 })
      [("alt-svc", alt_svc_value 443)] = some [("alt-svc", alt_svc_value 8800)]
  ∧ h3_header none [("alt-svc", alt_svc_value 8800)]
      = some [("alt-svc", alt_svc_value 443)] :=
  ⟨rfl, rfl, rfl, rfl, rfl, rfl⟩

/-- C9: `server_port` presence is never validated during loading: for
every deployment variant the bind-address formation of
`start_with_service` unwraps `server_port` and panics when it is
absent; concretely, a document with the full `https_only` field set
except `server_port` (and no `server_port_achiever`) passes
`load_generic_config` and `load_generic_state` successfully, yet
`start_with_service` panics instead of returning a classified
error. -/
theorem c9_server_port_unwrap_panics (v : StartupVariant) (cfg : GenericValues)
    (hp : cfg.server_port = none) :
    start_with_service_bind_addr v cfg = none
  ∧ load_generic_config (fun q => if q = "app.yaml" then some "doc" else none)
      (fun _ => some { emptyConfig with
        startup_type := "https_only", server_host := some "0.0.0.0",
        ssl_key_path := some "key.pem", ssl_crt_path := some "crt.pem" })
      (fun _ => .error "unused") "app"
      = .ok { emptyConfig with
          startup_type := "https_only", server_host := some "0.0.0.0",
          ssl_key_path := some "key.pem", ssl_crt_path := some "crt.pem" }
  ∧ (load_generic_state false freshWorld
        { emptyConfig with
          startup_type := "https_only", server_host := some "0.0.0.0",
          ssl_key_path := some "key.pem", ssl_crt_path := some "crt.pem" }).2
      = .ok ⟨.HttpsOnly, none⟩
  ∧ start_with_service_bind_addr .HttpsOnly
      { emptyConfig with
        startup_type := "https_only", server_host := some "0.0.0.0",
        ssl_key_path := some "key.pem", ssl_crt_path := some "crt.pem" } = none := by
  refine ⟨?_, rfl, rfl, rfl⟩
  cases v <;>
    cases hh : cfg.server_host <;> cases hc : cfg.ssl_crt_path <;>
    cases hk : cfg.ssl_key_path <;> cases ha : cfg.acme_domain <;>
    simp [start_with_service_bind_addr, hp, hh, hc, hk, ha]

/-- C9 witness at the `HttpLocalhost` variant and the empty document. -/
theorem c9_server_port_unwrap_panics_witness :
    start_with_service_bind_addr .HttpLocalhost emptyConfig = none :=
  (c9_server_port_unwrap_panics .HttpLocalhost emptyConfig rfl).1

/-- C10: `load_generic_state` registers the process-wide logger before
validating `startup_type` — whenever its logging prelude succeeds (the
rolling policy parses, nothing registered yet, file appender
buildable), the returned world records the registration no matter
whether the variant validation then succeeds or fails (on failure the
error value carries no state, so the file-log guard, if any, is
dropped); consequently every retry of `load_generic_state` in the same
process fails, and any retry whose rolling policy parses — in
particular one with the configuration fixed — fails exactly at logger
registration. -/
theorem c10_registration_precedes_validation (dbg : Bool) (w : LogWorld)
    (data : GenericValues) (r : Rotation)
    (hg : w.globalSubscriberSet = false) (hfa : w.fileAppenderOk = true)
    (hr : match_log_file_rolling data.log_rolling = .ok r) :
    (load_generic_state dbg w data).1 = { w with globalSubscriberSet := true }
  ∧ (∀ (dbg2 : Bool) (data2 : GenericValues),
      ((load_generic_state dbg2 (load_generic_state dbg w data).1 data2).2).isOk
        = false)
  ∧ (∀ (dbg2 : Bool) (data2 : GenericValues) (r2 : Rotation),
      match_log_file_rolling data2.log_rolling = .ok r2 →
      (load_generic_state dbg2 (load_generic_state dbg w data).1 data2).2
        = .error regErrorMessage) := by
  have hinit := init_logging_fresh w data.app_name
    (match_log_level dbg data.log_level) (match_log_level dbg data.log_file_level)
    r data.log_rolling_max_files hg hfa
  have hfst : (load_generic_state dbg w data).1 = { w with globalSubscriberSet := true } := by
    simp only [load_generic_state, hr, hinit]
  refine ⟨hfst, ?_, ?_⟩
  · intro dbg2 data2
    rw [hfst]
    exact load_generic_state_already_set dbg2 _ data2 rfl
  · intro dbg2 data2 r2 hr2
    rw [hfst]
    exact load_generic_state_already_set_full dbg2 _ data2 r2 rfl hfa hr2

/-- C10 witness: a failed load with an unknown `startup_type` leaves
the logger registered, and the retry with a fixed configuration fails
with the registration error. -/
theorem c10_registration_precedes_validation_witness :
    (load_generic_state true
        (load_generic_state true freshWorld
          { emptyConfig with startup_type := "teleport" }).1
        { emptyConfig with startup_type := "http_localhost" }).2
      = .error regErrorMessage :=
  (c10_registration_precedes_validation true freshWorld
      { emptyConfig with startup_type := "teleport" } .NEVER rfl rfl rfl).2.2
    true { emptyConfig with startup_type := "http_localhost" } .NEVER rfl

end CC

